import Mathlib

/-!
Shallow embedding of dsmr_exporter.py.

The program reads a DSMR telegram from a serial device once per interval,
pushes the readings into a set of Prometheus gauges, optionally writes a
filtered batch of points to InfluxDB, sleeps, and repeats. The embedding
below translates the pure data flow of that file into Lean definitions:

* a Telegram is the association list of decoded fields the dsmr objects
  iterate as (field_name, value) pairs; attribute access on the telegram
  is association-list lookup, a missing attribute raising AttributeError;
* a field value is either a number (modelled exactly as a rational, since
  the program performs no arithmetic on values, only pass-through) or a
  string that does not parse as a number (python float() on it raises
  ValueError);
* the Prometheus gauge registry is a function from gauge name to value,
  and gauge.set is a pointwise update;
* stateful functions are written in explicit state-passing style, with a
  trailing Option PyError component standing for a python exception that
  escaped the function (none = returned normally);
* the outcomes of the external calls (serial read, InfluxDB write) are
  parameters of the loop-iteration function, so one Lean value of the
  parameter corresponds to one behaviour of the external collaborator.
-/

/-- A decoded reading value as consumed by the export path: either a value
python float() accepts (kept exactly as a rational) or a string it rejects
with ValueError. -/
inductive PyVal where
  | num (q : ℚ)
  | nonNumeric (s : String)
deriving DecidableEq

/-- True when the value coerces to a number. -/
def PyVal.isNum : PyVal → Bool
  | .num _ => true
  | .nonNumeric _ => false

/-- Numeric payload, defaulting to 0 where unreachable. -/
def PyVal.numOf : PyVal → ℚ
  | .num q => q
  | .nonNumeric _ => 0

/-- The python exception classes the embedded code can raise or observe. -/
inductive PyError where
  | attributeError
  | valueError
  | syntaxError
  | osError
  | connectionError
deriving DecidableEq

/-- Log levels used by the program (logging is configured at level INFO,
so debug-level records are suppressed). -/
inductive LogLevel where
  | debug
  | info
  | warning
deriving DecidableEq

/-- One emitted log record. -/
structure LogEntry where
  level : LogLevel
  msg : String
deriving DecidableEq

/-- Short printable name of an exception, used in log messages. -/
def PyError.name : PyError → String
  | .attributeError => "AttributeError"
  | .valueError => "ValueError"
  | .syntaxError => "SyntaxError"
  | .osError => "OSError"
  | .connectionError => "ConnectionError"

/-- A telegram as iterated by post_to_influxdb (for field_name, value in
telegram) and attribute-accessed by post_to_prometheus. The wrapper object
around each reading is identified with its .value payload, the only part
the program consumes. -/
abbrev Telegram : Type := List (String × PyVal)

/-- The Prometheus gauge registry: current value of each named gauge. -/
abbrev GaugeState : Type := String → PyVal

/-- Gauge.set on the registry (line 119 and following). -/
def gset (g : GaugeState) (name : String) (v : PyVal) : GaugeState :=
  fun n => if n = name then v else g n

/-- A process environment, as consulted by os.getenv. -/
abbrev Env : Type := List (String × String)

/-- os.getenv(name, default). -/
def getenvD (env : Env) (name default : String) : String :=
  (List.lookup name env).getD default

/-- Truthiness of a python string: every non-empty string is truthy. -/
def pythonTruthy (s : String) : Bool := !(s == "")

/-- DEBUG = os.getenv(DEBUG, the string false) — line 74. Note the default
is the five-character string, not the boolean. -/
def debugEnvValue (env : Env) : String := getenvD env "DEBUG" "false"

/-- Truthiness of the DEBUG variable after the command line is applied
(lines 200-201): args.debug of some true overwrites DEBUG with True;
otherwise DEBUG keeps the environment string and its string truthiness. -/
def debugVar (env : Env) (argsDebug : Option Bool) : Bool :=
  match argsDebug with
  | some true => true
  | _ => pythonTruthy (debugEnvValue env)

/-- Arguments the program passes to the InfluxDBClient constructor
(line 85). -/
structure InfluxArgs where
  url : String
  token : String
  org : String
  verifySsl : Bool
deriving DecidableEq

/-- InfluxDBClient(url=INFLUXDB_URL, token=USERNAME:PASSWORD,
org=INFLUXDB_ORG_ID, verify_ssl=False) — lines 77-85. The verify_ssl
argument is the literal False. -/
def influxdbClientArgs (env : Env) : InfluxArgs :=
  { url := getenvD env "INFLUXDB_URL" ""
    token := getenvD env "INFLUXDB_USERNAME" "" ++ ":" ++ getenvD env "INFLUXDB_PASSWORD" ""
    org := getenvD env "INFLUXDB_ORG_ID" ""
    verifySsl := false }

/-- INFLUXDB_VERIFY_SSL = os.getenv(INFLUXDB_VERIFY_SSL) — line 83. The
binding exists; no other part of the program mentions it. -/
def influxdbVerifySslBinding (env : Env) : Option String :=
  List.lookup "INFLUXDB_VERIFY_SSL" env

/-- The metric catalog: the Gauge declarations of lines 90-106, as
(telegram field identifier, gauge name, gauge description) triples, in
declaration order. -/
def metricCatalog : List (String × String × String) :=
  [ ("P1_MESSAGE_HEADER", "p1_message_header", "Message header count"),
    ("ELECTRICITY_USED_TARIFF_1", "electricity_used_tariff_1", "Electricity used tariff 1 (kWh)"),
    ("ELECTRICITY_USED_TARIFF_2", "electricity_used_tariff_2", "Electricity used tariff 2 (kWh)"),
    ("ELECTRICITY_DELIVERED_TARIFF_1", "electricity_delivered_tariff_1", "Electricity delivered tariff 1 (kWh)"),
    ("ELECTRICITY_DELIVERED_TARIFF_2", "electricity_delivered_tariff_2", "Electricity delivered tariff 2 (kWh)"),
    ("ELECTRICITY_ACTIVE_TARIFF", "electricity_active_tariff", "Electricity active tariff"),
    ("CURRENT_ELECTRICITY_USAGE", "current_electricity_usage", "Current electricity usage (kW)"),
    ("CURRENT_ELECTRICITY_DELIVERY", "current_electricity_delivery", "Current electricity delivery (kW)"),
    ("LONG_POWER_FAILURE_COUNT", "long_power_failure_count", "Long power failure count"),
    ("SHORT_POWER_FAILURE_COUNT", "short_power_failure_count", "Short power failure count"),
    ("VOLTAGE_SAG_L1_COUNT", "voltage_sag_l1_count", "Voltage sag L1 count"),
    ("VOLTAGE_SWELL_L1_COUNT", "voltage_swell_l1_count", "Voltage swell L1 count"),
    ("INSTANTANEOUS_VOLTAGE_L1", "instantaneous_voltage_l1", "Instantaneous voltage L1 (V)"),
    ("INSTANTANEOUS_CURRENT_L1", "instantaneous_current_l1", "Instantaneous current L1 (A)"),
    ("INSTANTANEOUS_ACTIVE_POWER_L1_POSITIVE", "instantaneous_active_power_l1_positive", "Instantaneous active power l1 positive (kW)"),
    ("INSTANTANEOUS_ACTIVE_POWER_L1_NEGATIVE", "instantaneous_active_power_l1_negative", "Instantaneous active power l1 negative (kW)"),
    ("HOURLY_GAS_METER_READING", "hourly_gas_meter_reading", "Hourly gas meter reading (m3)") ]

/-- The body of post_to_prometheus, lines 119-134: the sequence of
GAUGE.set(telegram.FIELD.value) statements, as (gauge name, telegram
field identifier) pairs in statement order. -/
def promUpdates : List (String × String) :=
  [ ("electricity_used_tariff_1", "ELECTRICITY_USED_TARIFF_1"),
    ("electricity_used_tariff_2", "ELECTRICITY_USED_TARIFF_2"),
    ("electricity_delivered_tariff_1", "ELECTRICITY_DELIVERED_TARIFF_1"),
    ("electricity_delivered_tariff_2", "ELECTRICITY_DELIVERED_TARIFF_2"),
    ("electricity_active_tariff", "ELECTRICITY_ACTIVE_TARIFF"),
    ("current_electricity_usage", "CURRENT_ELECTRICITY_USAGE"),
    ("current_electricity_delivery", "CURRENT_ELECTRICITY_DELIVERY"),
    ("long_power_failure_count", "LONG_POWER_FAILURE_COUNT"),
    ("short_power_failure_count", "SHORT_POWER_FAILURE_COUNT"),
    ("voltage_sag_l1_count", "VOLTAGE_SAG_L1_COUNT"),
    ("voltage_swell_l1_count", "VOLTAGE_SWELL_L1_COUNT"),
    ("instantaneous_voltage_l1", "INSTANTANEOUS_VOLTAGE_L1"),
    ("instantaneous_current_l1", "INSTANTANEOUS_CURRENT_L1"),
    ("instantaneous_active_power_l1_positive", "INSTANTANEOUS_ACTIVE_POWER_L1_POSITIVE"),
    ("instantaneous_active_power_l1_negative", "INSTANTANEOUS_ACTIVE_POWER_L1_NEGATIVE"),
    ("hourly_gas_meter_reading", "HOURLY_GAS_METER_READING") ]

/-- Run a sequence of gauge-setting statements. Each statement looks up
the telegram attribute; a missing attribute raises AttributeError on the
spot, leaving the registry as updated so far (python executes the set
statements one by one). Returns (registry after, samples applied in
order, escaped exception). -/
def promRun : List (String × String) → Telegram → GaugeState →
    GaugeState × List (String × PyVal) × Option PyError
  | [], _, g => (g, [], none)
  | (gn, fn) :: rest, t, g =>
    match List.lookup fn t with
    | none => (g, [], some PyError.attributeError)
    | some v =>
      let r := promRun rest t (gset g gn v)
      (r.1, (gn, v) :: r.2.1, r.2.2)

/-- post_to_prometheus (lines 115-134) in state-passing form. -/
def postToPrometheus (t : Telegram) (g : GaugeState) :
    GaugeState × List (String × PyVal) × Option PyError :=
  promRun promUpdates t g

/-- The fields tuple of post_to_influxdb, lines 138-158: the allow-list
filtering which telegram fields become InfluxDB points. -/
def influxFields : List String :=
  [ "ELECTRICITY_USED_TARIFF_1",
    "ELECTRICITY_USED_TARIFF_2",
    "ELECTRICITY_DELIVERED_TARIFF_1",
    "ELECTRICITY_DELIVERED_TARIFF_2",
    "ELECTRICITY_ACTIVE_TARIFF",
    "CURRENT_ELECTRICITY_USAGE",
    "CURRENT_ELECTRICITY_DELIVERY",
    "LONG_POWER_FAILURE_COUNT",
    "VOLTAGE_SAG_L1_COUNT",
    "VOLTAGE_SAG_L2_COUNT",
    "VOLTAGE_SAG_L3_COUNT",
    "VOLTAGE_SWELL_L1_COUNT",
    "VOLTAGE_SWELL_L2_COUNT",
    "VOLTAGE_SWELL_L3_COUNT",
    "INSTANTANEOUS_ACTIVE_POWER_L1_POSITIVE",
    "INSTANTANEOUS_ACTIVE_POWER_L2_POSITIVE",
    "INSTANTANEOUS_ACTIVE_POWER_L3_POSITIVE",
    "INSTANTANEOUS_ACTIVE_POWER_L1_NEGATIVE",
    "INSTANTANEOUS_ACTIVE_POWER_L2_NEGATIVE",
    "INSTANTANEOUS_ACTIVE_POWER_L3_NEGATIVE",
    "HOURLY_GAS_METER_READING" ]

/-- float(value.value), line 167: a number passes through, anything else
raises ValueError. -/
def tryFloat : PyVal → Except PyError ℚ
  | .num q => .ok q
  | .nonNumeric _ => .error PyError.valueError

/-- int(value.value), line 169 (the fallback of the SyntaxError handler;
unreachable, since tryFloat never raises SyntaxError): a number truncates
to an integer, anything else raises ValueError. -/
def tryInt : PyVal → Except PyError ℚ
  | .num q => .ok ((q.num / q.den : ℤ) : ℚ)
  | .nonNumeric _ => .error PyError.valueError

/-- norm_value, lines 166-169: try float(value.value); the except clause
catches only SyntaxError and falls back to int(value.value); any other
exception — in particular the ValueError float() actually raises —
escapes. -/
def normValue (v : PyVal) : Except PyError ℚ :=
  match tryFloat v with
  | .ok x => .ok x
  | .error PyError.syntaxError => tryInt v
  | .error e => .error e

/-- An InfluxDB point as the program constructs it on line 171:
Point(dsmr).tag(location, DSMR_LOCATION).field(field_name, norm_value).
No .time(...) call is made, so the point carries no timestamp. -/
structure Point where
  measurement : String
  tags : List (String × String)
  fields : List (String × ℚ)
  time : Option Nat
deriving DecidableEq

/-- The point built for one field, line 171. -/
def mkPoint (loc fieldName : String) (x : ℚ) : Point :=
  { measurement := "dsmr"
    tags := [("location", loc)]
    fields := [(fieldName, x)]
    time := none }

/-- The for-loop of post_to_influxdb, lines 163-173: walk the telegram in
order, skip fields outside the allow-list, coerce the rest, appending a
point (and, when DEBUG is truthy, an info log record whose interpolated
values are elided here) per kept field; the first coercion failure
escapes immediately. Returns (points so far, logs so far, escaped
exception). -/
def buildPoints (dbg : Bool) (loc : String) : List (String × PyVal) →
    List Point × List LogEntry × Option PyError
  | [] => ([], [], none)
  | (n, v) :: rest =>
    if influxFields.contains n then
      match normValue v with
      | .error e => ([], [], some e)
      | .ok x =>
        let r := buildPoints dbg loc rest
        (mkPoint loc n x :: r.1,
         (if dbg then [⟨LogLevel.info, "Added datapoint: Field " ++ n⟩] else []) ++ r.2.1,
         r.2.2)
    else buildPoints dbg loc rest

/-- The log record of line 179. -/
def warnInflux (e : PyError) : LogEntry :=
  ⟨LogLevel.warning, "Exception sending to InfluxDB: " ++ e.name⟩

/-- post_to_influxdb, lines 136-179. The epoch_time_now of line 162 is
computed and never used, hence the unused parameter. The write call is
the external collaborator; its outcome for this cycle is the writeRes
parameter. Returns (log records emitted, number of write calls made,
normal return of the point list and a written flag, or escaped
exception). On a write exception the batch is dropped after the single
attempt (written = false); a coercion exception escapes before any
write. -/
def postToInfluxdb (dbg : Bool) (loc : String) (_epochTimeNow : Nat)
    (t : Telegram) (writeRes : Except PyError Unit) :
    List LogEntry × Nat × Except PyError (List Point × Bool) :=
  match buildPoints dbg loc t with
  | (_, ls, some e) => (ls, 0, .error e)
  | (ps, ls, none) =>
    match writeRes with
    | .ok _ =>
      (ls ++ (if dbg then [⟨LogLevel.info, "InfluxDB response: OK"⟩] else []), 1, .ok (ps, true))
    | .error e => (ls ++ [warnInflux e], 1, .ok (ps, false))

/-- str_to_bool, lines 181-186. -/
def strToBool (value : String) : Except PyError Bool :=
  if value.toLower ∈ ["false", "f", "0", "no", "n"] then .ok false
  else if value.toLower ∈ ["true", "t", "1", "yes", "y"] then .ok true
  else .error PyError.valueError

/-- The log record of line 212 (the catch-all of the main loop). -/
def warnCycle (e : PyError) : LogEntry :=
  ⟨LogLevel.warning, "Exception getting dsmr readings: " ++ e.name⟩

/-- One iteration of the while-loop, lines 205-217, in state-passing
form. fetch is the outcome of get_dsmr_readings() on line 207, writeRes
the outcome of the influxdb write of this cycle, debugFetch the outcome
of the get_dsmr_readings() call on line 217. The try of lines 206-213
catches any exception of the three steps and logs it; control then
reaches time.sleep on line 215 in every case. After the sleep, when
DEBUG is truthy, line 217 evaluates get_dsmr_readings() outside any
try-block (its logging.debug record is suppressed by the INFO logging
level, but the read still runs); an exception there escapes the loop.
Returns (gauge registry after, log records, escaped exception — some e
meaning the iteration raised and the process terminates, none meaning
the next cycle starts). -/
def loopIter (dbg influxFlag : Bool) (loc : String) (now : Nat)
    (fetch : Except PyError Telegram) (writeRes : Except PyError Unit)
    (debugFetch : Except PyError Telegram) (g : GaugeState) :
    GaugeState × List LogEntry × Option PyError :=
  let inner : GaugeState × List LogEntry :=
    match fetch with
    | .error e => (g, [warnCycle e])
    | .ok t =>
      match postToPrometheus t g with
      | (g1, _, some e) => (g1, [warnCycle e])
      | (g1, _, none) =>
        if influxFlag then
          match postToInfluxdb dbg loc now t writeRes with
          | (ls, _, .error e) => (g1, ls ++ [warnCycle e])
          | (ls, _, .ok _) => (g1, ls)
        else (g1, [])
  if dbg then
    match debugFetch with
    | .error e => (inner.1, inner.2, some e)
    | .ok _ => (inner.1, inner.2, none)
  else (inner.1, inner.2, none)

/-- Apply a sequence of gauge-setting statements assuming every field
present (used to describe the successful prefix of a run). -/
def applyAll : List (String × String) → Telegram → GaugeState → GaugeState
  | [], _, g => g
  | (gn, fn) :: rest, t, g =>
    applyAll rest t (gset g gn ((List.lookup fn t).getD (PyVal.num 0)))

/-- The samples a sequence of statements reads off a telegram. -/
def samplesOf (ups : List (String × String)) (t : Telegram) : List (String × PyVal) :=
  ups.map (fun p => (p.1, (List.lookup p.2 t).getD (PyVal.num 0)))

/-- Whether the field of one statement is present in the telegram. -/
def presentIn (t : Telegram) (p : String × String) : Bool :=
  (List.lookup p.2 t).isSome

/-- A list whose elements all satisfy p is its own takeWhile. -/
theorem takeWhile_of_all {α : Type} (p : α → Bool) :
    ∀ l : List α, (∀ a ∈ l, p a = true) → l.takeWhile p = l := by
  intro l h
  induction l with
  | nil => simp
  | cons a l ih =>
    have ha : p a = true := h a (by simp)
    simp [List.takeWhile_cons, ha, ih (fun b hb => h b (by simp [hb]))]

/-- Characterisation of a gauge-update run: the statements before the
first missing field are applied in order, the remainder is not, and the
run raises exactly when some field is missing. -/
theorem promRun_takeWhile (ups : List (String × String)) (t : Telegram) : ∀ g,
    promRun ups t g =
      (applyAll (ups.takeWhile (presentIn t)) t g,
       samplesOf (ups.takeWhile (presentIn t)) t,
       if (ups.takeWhile (presentIn t)).length = ups.length then none
       else some PyError.attributeError) := by
  induction ups with
  | nil =>
    intro g
    simp [promRun, applyAll, samplesOf]
  | cons hd tl ih =>
    intro g
    obtain ⟨gn, fn⟩ := hd
    cases h : List.lookup fn t with
    | none =>
      have hp : presentIn t (gn, fn) = false := by simp [presentIn, h]
      simp [promRun, h, List.takeWhile_cons, hp, applyAll, samplesOf]
    | some v =>
      have hp : presentIn t (gn, fn) = true := by simp [presentIn, h]
      simp [promRun, h, List.takeWhile_cons, hp, applyAll, samplesOf, ih]

/-- A telegram containing an allow-listed non-numeric field makes the
point-building loop raise ValueError, provided the allow-listed fields
before it are numeric. -/
theorem buildPoints_err (dbg : Bool) (loc n s : String) (post : List (String × PyVal)) :
    ∀ pre : List (String × PyVal),
      (∀ p ∈ pre, p.1 ∈ influxFields → p.2.isNum = true) →
      n ∈ influxFields →
      (buildPoints dbg loc (pre ++ (n, PyVal.nonNumeric s) :: post)).2.2 =
        some PyError.valueError := by
  intro pre
  induction pre with
  | nil =>
    intro _ hn
    simp [buildPoints, hn, normValue, tryFloat]
  | cons p pre ih =>
    intro hall hn
    obtain ⟨pn, pv⟩ := p
    by_cases hc : pn ∈ influxFields
    · have hnum : pv.isNum = true := hall (pn, pv) (by simp) hc
      cases pv with
      | nonNumeric u => simp [PyVal.isNum] at hnum
      | num q =>
        simp [buildPoints, hc, normValue, tryFloat,
          ih (fun p hp hin => hall p (by simp [hp]) hin) hn]
    · simp [buildPoints, hc, ih (fun p hp hin => hall p (by simp [hp]) hin) hn]

/-- When the point-building loop returns normally, the batch is the
allow-listed fields of the telegram, in telegram order, one point each. -/
theorem buildPoints_ok_shape (dbg : Bool) (loc : String) :
    ∀ t : List (String × PyVal),
      (buildPoints dbg loc t).2.2 = none →
      (buildPoints dbg loc t).1 =
        (t.filter (fun p => influxFields.contains p.1)).map
          (fun p => mkPoint loc p.1 p.2.numOf) := by
  intro t
  induction t with
  | nil => intro _; simp [buildPoints]
  | cons p rest ih =>
    obtain ⟨pn, pv⟩ := p
    intro h
    by_cases hc : pn ∈ influxFields
    · cases pv with
      | nonNumeric u => simp [buildPoints, hc, normValue, tryFloat] at h
      | num q =>
        have h2 : (buildPoints dbg loc rest).2.2 = none := by
          simpa [buildPoints, hc, normValue, tryFloat] using h
        simp [buildPoints, hc, normValue, tryFloat, List.filter_cons, ih h2, PyVal.numOf]
    · have h2 : (buildPoints dbg loc rest).2.2 = none := by
        simpa [buildPoints, hc] using h
      simp [buildPoints, hc, List.filter_cons, ih h2]

/-- The all-zero gauge registry, standing for the pre-cycle state. -/
def g0 : GaugeState := fun _ => PyVal.num 0

/-- A telegram carrying every catalog field with a distinct numeric
value. -/
def fullT : Telegram :=
  [ ("P1_MESSAGE_HEADER", PyVal.num 50),
    ("ELECTRICITY_USED_TARIFF_1", PyVal.num 1),
    ("ELECTRICITY_USED_TARIFF_2", PyVal.num 2),
    ("ELECTRICITY_DELIVERED_TARIFF_1", PyVal.num 3),
    ("ELECTRICITY_DELIVERED_TARIFF_2", PyVal.num 4),
    ("ELECTRICITY_ACTIVE_TARIFF", PyVal.num 5),
    ("CURRENT_ELECTRICITY_USAGE", PyVal.num 6),
    ("CURRENT_ELECTRICITY_DELIVERY", PyVal.num 7),
    ("LONG_POWER_FAILURE_COUNT", PyVal.num 8),
    ("SHORT_POWER_FAILURE_COUNT", PyVal.num 9),
    ("VOLTAGE_SAG_L1_COUNT", PyVal.num 10),
    ("VOLTAGE_SWELL_L1_COUNT", PyVal.num 11),
    ("INSTANTANEOUS_VOLTAGE_L1", PyVal.num 12),
    ("INSTANTANEOUS_CURRENT_L1", PyVal.num 13),
    ("INSTANTANEOUS_ACTIVE_POWER_L1_POSITIVE", PyVal.num 14),
    ("INSTANTANEOUS_ACTIVE_POWER_L1_NEGATIVE", PyVal.num 15),
    ("HOURLY_GAS_METER_READING", PyVal.num 16) ]

deriving instance DecidableEq for Except

/-- Reduction of post_to_influxdb when the batch builds and the write
succeeds. -/
theorem postToInfluxdb_ok (dbg : Bool) (loc : String) (now : Nat) (t : Telegram)
    (hb : (buildPoints dbg loc t).2.2 = none) :
    postToInfluxdb dbg loc now t (.ok ()) =
      ((buildPoints dbg loc t).2.1 ++
         (if dbg then [⟨LogLevel.info, "InfluxDB response: OK"⟩] else []), 1,
       .ok ((buildPoints dbg loc t).1, true)) := by
  unfold postToInfluxdb
  rcases hbp : buildPoints dbg loc t with ⟨ps, ls, err⟩
  rw [hbp] at hb
  cases err with
  | some e => simp at hb
  | none => simp

/-- Reduction of post_to_influxdb when the batch builds and the write
raises: the exception is caught on line 178, a warning is logged, the
batch is dropped after the one write attempt. -/
theorem postToInfluxdb_writeErr (dbg : Bool) (loc : String) (now : Nat)
    (t : Telegram) (e : PyError)
    (hb : (buildPoints dbg loc t).2.2 = none) :
    postToInfluxdb dbg loc now t (.error e) =
      ((buildPoints dbg loc t).2.1 ++ [warnInflux e], 1,
       .ok ((buildPoints dbg loc t).1, false)) := by
  unfold postToInfluxdb
  rcases hbp : buildPoints dbg loc t with ⟨ps, ls, err⟩
  rw [hbp] at hb
  cases err with
  | some e2 => simp at hb
  | none => simp

/-- Reduction of post_to_influxdb when building the batch raises: the
exception escapes before any write call. -/
theorem postToInfluxdb_raise (dbg : Bool) (loc : String) (now : Nat)
    (t : Telegram) (e : PyError) (wr : Except PyError Unit)
    (hb : (buildPoints dbg loc t).2.2 = some e) :
    postToInfluxdb dbg loc now t wr = ((buildPoints dbg loc t).2.1, 0, .error e) := by
  unfold postToInfluxdb
  rcases hbp : buildPoints dbg loc t with ⟨ps, ls, err⟩
  rw [hbp] at hb
  cases err with
  | some e2 => simp at hb; subst hb; simp
  | none => simp at hb

/-- Reduction of one loop iteration when the gauges update cleanly and
post_to_influxdb returns normally. -/
theorem loopIter_influx_returns (dbg : Bool) (loc : String) (now : Nat)
    (t td : Telegram) (wr : Except PyError Unit) (g : GaugeState)
    (ls : List LogEntry) (k : Nat) (pr : List Point × Bool)
    (hp : (postToPrometheus t g).2.2 = none)
    (hi : postToInfluxdb dbg loc now t wr = (ls, k, .ok pr)) :
    loopIter dbg true loc now (.ok t) wr (.ok td) g =
      ((postToPrometheus t g).1, ls, none) := by
  rcases hpp : postToPrometheus t g with ⟨g1, ss, perr⟩
  rw [hpp] at hp
  cases perr with
  | some e2 => simp at hp
  | none => cases dbg <;> simp [loopIter, hpp, hi]

/-- Reduction of one loop iteration when the gauges update cleanly and
post_to_influxdb raises: the outer except of lines 211-213 catches and
logs, and the iteration still completes. -/
theorem loopIter_influx_raises (dbg : Bool) (loc : String) (now : Nat)
    (t td : Telegram) (wr : Except PyError Unit) (g : GaugeState)
    (ls : List LogEntry) (k : Nat) (e : PyError)
    (hp : (postToPrometheus t g).2.2 = none)
    (hi : postToInfluxdb dbg loc now t wr = (ls, k, .error e)) :
    loopIter dbg true loc now (.ok t) wr (.ok td) g =
      ((postToPrometheus t g).1, ls ++ [warnCycle e], none) := by
  rcases hpp : postToPrometheus t g with ⟨g1, ss, perr⟩
  rw [hpp] at hp
  cases perr with
  | some e2 => simp at hp
  | none => cases dbg <;> simp [loopIter, hpp, hi]

/-- C9: for every input string s, str_to_bool returns False exactly when
the lower-cased s is one of false, f, 0, no, n; returns True exactly when
the lower-cased s is one of true, t, 1, yes, y; and raises ValueError for
every other string. -/
theorem C9_str_to_bool_trichotomy (s : String) :
    (strToBool s = .ok false ↔ s.toLower ∈ ["false", "f", "0", "no", "n"]) ∧
    (strToBool s = .ok true ↔ s.toLower ∈ ["true", "t", "1", "yes", "y"]) ∧
    (strToBool s = .error PyError.valueError ↔
      (s.toLower ∉ ["false", "f", "0", "no", "n"] ∧
       s.toLower ∉ ["true", "t", "1", "yes", "y"])) := by
  by_cases h1 : s.toLower ∈ ["false", "f", "0", "no", "n"]
  · simp only [List.mem_cons, List.not_mem_nil, or_false] at h1
    rcases h1 with h | h | h | h | h <;> simp [strToBool, h]
  · by_cases h2 : s.toLower ∈ ["true", "t", "1", "yes", "y"]
    · simp only [List.mem_cons, List.not_mem_nil, or_false] at h2
      rcases h2 with h | h | h | h | h <;> simp [strToBool, h]
    · simp [strToBool, h1, h2]

/-- C10: the InfluxDB client is constructed with SSL verification
disabled whatever the environment holds, and the INFLUXDB_VERIFY_SSL
environment value has no effect on the constructed client. -/
theorem C10_verify_ssl_always_disabled (env : Env) :
    (influxdbClientArgs env).verifySsl = false ∧
    ∀ v : String,
      influxdbClientArgs (("INFLUXDB_VERIFY_SSL", v) :: env) = influxdbClientArgs env := by
  refine ⟨rfl, ?_⟩
  intro v
  simp [influxdbClientArgs, getenvD, List.lookup]

/-- C7 counterexample: VOLTAGE_SAG_L2_COUNT is in the InfluxDB export
allow-list but no gauge is declared for it, so the allow-list is not a
subset of the metric catalog. -/
theorem C7_allowlist_not_subset :
    influxFields.contains "VOLTAGE_SAG_L2_COUNT" = true ∧
    (metricCatalog.map Prod.fst).contains "VOLTAGE_SAG_L2_COUNT" = false := by
  exact ⟨by decide, by decide⟩

/-- C7 amended: thirteen of the twenty-one allow-list names are catalog
members; the eight L2 and L3 phase variants are allow-listed without a
declared gauge. -/
theorem C7_allowlist_partition :
    influxFields.filter (fun f => (metricCatalog.map Prod.fst).contains f) =
      ["ELECTRICITY_USED_TARIFF_1", "ELECTRICITY_USED_TARIFF_2",
       "ELECTRICITY_DELIVERED_TARIFF_1", "ELECTRICITY_DELIVERED_TARIFF_2",
       "ELECTRICITY_ACTIVE_TARIFF", "CURRENT_ELECTRICITY_USAGE",
       "CURRENT_ELECTRICITY_DELIVERY", "LONG_POWER_FAILURE_COUNT",
       "VOLTAGE_SAG_L1_COUNT", "VOLTAGE_SWELL_L1_COUNT",
       "INSTANTANEOUS_ACTIVE_POWER_L1_POSITIVE",
       "INSTANTANEOUS_ACTIVE_POWER_L1_NEGATIVE", "HOURLY_GAS_METER_READING"] ∧
    influxFields.filter (fun f => !(metricCatalog.map Prod.fst).contains f) =
      ["VOLTAGE_SAG_L2_COUNT", "VOLTAGE_SAG_L3_COUNT",
       "VOLTAGE_SWELL_L2_COUNT", "VOLTAGE_SWELL_L3_COUNT",
       "INSTANTANEOUS_ACTIVE_POWER_L2_POSITIVE",
       "INSTANTANEOUS_ACTIVE_POWER_L3_POSITIVE",
       "INSTANTANEOUS_ACTIVE_POWER_L2_NEGATIVE",
       "INSTANTANEOUS_ACTIVE_POWER_L3_NEGATIVE"] := by
  exact ⟨by decide, by decide⟩

/-- C1, failing input: with DEBUG unset the variable holds the truthy
string false, so line 217 runs every cycle; its get_dsmr_readings call
sits outside the try-block, and when that read raises, the iteration
raises and the process terminates — a source failure that is not caught
at the cycle boundary. The sleep of line 215 is reached, but the next
cycle never starts. -/
theorem C1_debug_read_terminates_process :
    debugVar [] none = true ∧
    (loopIter (debugVar [] none) false "Adelaide" 0 (.ok fullT) (.ok ())
        (.error PyError.osError) g0).2.2 = some PyError.osError := by
  exact ⟨by decide, by decide⟩

/-- C8: with the DEBUG key unset and no debug flag given, the DEBUG
variable holds the non-empty (hence truthy) string false, so the
per-datapoint info record of line 173 is still emitted and the
end-of-cycle sensor read of line 217 still runs (its outcome decides
whether the iteration survives), contradicting the documented default of
disabled verbose logging. -/
theorem C8_debug_default_truthy :
    debugEnvValue [] = "false" ∧
    pythonTruthy "false" = true ∧
    (buildPoints (debugVar [] none) "Adelaide"
        [("ELECTRICITY_USED_TARIFF_1", PyVal.num 5)]).2.1 =
      [⟨LogLevel.info, "Added datapoint: Field ELECTRICITY_USED_TARIFF_1"⟩] ∧
    (loopIter (debugVar [] none) false "Adelaide" 0 (.ok fullT) (.ok ())
        (.ok []) g0).2.2 = none ∧
    (loopIter (debugVar [] none) false "Adelaide" 0 (.ok fullT) (.ok ())
        (.error PyError.connectionError) g0).2.2 = some PyError.connectionError := by
  exact ⟨by decide, by decide, by decide, by decide, by decide⟩

/-- C3 counterexample: a cycle whose telegram has the first mapped field
but lacks the second fails partway through post_to_prometheus and leaves
the first gauge at the new value 5 while the pre-cycle value was 0 — a
proper prefix of the updates is visible, so the update is not one
logical batch. -/
theorem C3_partial_update_visible :
    (postToPrometheus [("ELECTRICITY_USED_TARIFF_1", PyVal.num 5)] g0).2.2 =
      some PyError.attributeError ∧
    (postToPrometheus [("ELECTRICITY_USED_TARIFF_1", PyVal.num 5)] g0).1
      "electricity_used_tariff_1" = PyVal.num 5 ∧
    g0 "electricity_used_tariff_1" = PyVal.num 0 := by
  exact ⟨by decide, by decide, by decide⟩

/-- C3 amended: the gauges are updated value by value, not as one batch:
a run applies exactly the statements before the first missing telegram
field (leaving every later gauge at its pre-cycle value) and raises
exactly when some mapped field is missing. -/
theorem C3_gauges_updated_value_by_value (t : Telegram) (g : GaugeState) :
    postToPrometheus t g =
      (applyAll (promUpdates.takeWhile (presentIn t)) t g,
       samplesOf (promUpdates.takeWhile (presentIn t)) t,
       if (promUpdates.takeWhile (presentIn t)).length = promUpdates.length then none
       else some PyError.attributeError) :=
  promRun_takeWhile promUpdates t g

/-- C4 counterexample: on a telegram carrying every catalog field the
mapping step produces 16 samples while the catalog has 17 declared
gauges; p1_message_header is declared (line 90) but never set by
post_to_prometheus, so its gauge keeps the pre-cycle value. -/
theorem C4_p1_message_header_unmapped :
    metricCatalog.all (fun c => (List.lookup c.1 fullT).isSome) = true ∧
    metricCatalog.length = 17 ∧
    (postToPrometheus fullT g0).2.2 = none ∧
    (postToPrometheus fullT g0).2.1.length = 16 ∧
    ((postToPrometheus fullT g0).2.1.map Prod.fst).contains "p1_message_header" = false ∧
    (metricCatalog.map (fun c => c.2.1)).contains "p1_message_header" = true ∧
    (postToPrometheus fullT g0).1 "p1_message_header" = g0 "p1_message_header" := by
  exact ⟨by decide, by decide, by decide, by decide, by decide, by decide, by decide⟩

/-- C4 amended: for a telegram containing every mapped field, the mapping
step yields exactly one sample per entry of the 16-row update table —
the catalog minus p1_message_header — each with the reading value passed
through unchanged (no unit conversion). -/
theorem C4_mapping_identity (t : Telegram) (g : GaugeState)
    (H : ∀ p ∈ promUpdates, (List.lookup p.2 t).isSome = true) :
    (postToPrometheus t g).2.2 = none ∧
    (postToPrometheus t g).2.1 = samplesOf promUpdates t ∧
    (postToPrometheus t g).2.1.length = promUpdates.length ∧
    (∀ p ∈ promUpdates, ∀ v, List.lookup p.2 t = some v →
      (p.1, v) ∈ (postToPrometheus t g).2.1) ∧
    promUpdates.map Prod.fst =
      (metricCatalog.map (fun c => c.2.1)).filter (fun nm => nm != "p1_message_header") := by
  have htw : promUpdates.takeWhile (presentIn t) = promUpdates :=
    takeWhile_of_all _ _ (fun p hp => by simpa [presentIn] using H p hp)
  have h : postToPrometheus t g =
      (applyAll (promUpdates.takeWhile (presentIn t)) t g,
       samplesOf (promUpdates.takeWhile (presentIn t)) t,
       if (promUpdates.takeWhile (presentIn t)).length = promUpdates.length then none
       else some PyError.attributeError) := promRun_takeWhile promUpdates t g
  rw [htw] at h
  refine ⟨by rw [h]; simp, by rw [h], by rw [h]; simp [samplesOf], ?_, by decide⟩
  intro p hp v hv
  rw [h]
  exact List.mem_map.mpr ⟨p, hp, by simp [hv]⟩

/-- C4 witness: the amended mapping law evaluated on a concrete telegram
carrying every catalog field. -/
theorem C4_mapping_identity_witness :
    (∀ p ∈ promUpdates, (List.lookup p.2 fullT).isSome = true) ∧
    ((postToPrometheus fullT g0).2.2 = none ∧
     (postToPrometheus fullT g0).2.1 = samplesOf promUpdates fullT ∧
     (postToPrometheus fullT g0).2.1.length = promUpdates.length ∧
     (∀ p ∈ promUpdates, ∀ v, List.lookup p.2 fullT = some v →
       (p.1, v) ∈ (postToPrometheus fullT g0).2.1) ∧
     promUpdates.map Prod.fst =
       (metricCatalog.map (fun c => c.2.1)).filter (fun nm => nm != "p1_message_header")) :=
  ⟨by decide, C4_mapping_identity fullT g0 (by decide)⟩

/-- C2: when the batch builds and the InfluxDB write raises, the failure
is logged at warning level, the batch is dropped after the single write
attempt, and the gauge registry as set by post_to_prometheus in the same
cycle is exactly what a write success would have left — the push-sink
failure never reaches the pull-sink state. -/
theorem C2_sink_independence (t : Telegram) (g : GaugeState) (loc : String)
    (dbg : Bool) (now : Nat) (e : PyError) (td : Telegram)
    (hb : (buildPoints dbg loc t).2.2 = none)
    (hp : (postToPrometheus t g).2.2 = none) :
    postToInfluxdb dbg loc now t (.error e) =
      ((buildPoints dbg loc t).2.1 ++ [warnInflux e], 1,
       .ok ((buildPoints dbg loc t).1, false)) ∧
    (warnInflux e).level = LogLevel.warning ∧
    loopIter dbg true loc now (.ok t) (.error e) (.ok td) g =
      ((postToPrometheus t g).1,
       (buildPoints dbg loc t).2.1 ++ [warnInflux e], none) ∧
    (loopIter dbg true loc now (.ok t) (.error e) (.ok td) g).1 =
      (loopIter dbg true loc now (.ok t) (.ok ()) (.ok td) g).1 := by
  have hA := postToInfluxdb_writeErr dbg loc now t e hb
  have hB := postToInfluxdb_ok dbg loc now t hb
  have hL1 := loopIter_influx_returns dbg loc now t td (.error e) g _ _ _ hp hA
  have hL2 := loopIter_influx_returns dbg loc now t td (.ok ()) g _ _ _ hp hB
  exact ⟨hA, rfl, hL1, by rw [hL1, hL2]⟩

/-- C2 witness: the sink-independence theorem evaluated on a concrete
cycle whose write raises ConnectionError. -/
theorem C2_sink_independence_witness :
    (buildPoints false "Adelaide" fullT).2.2 = none ∧
    (postToPrometheus fullT g0).2.2 = none ∧
    (postToInfluxdb false "Adelaide" 0 fullT (.error PyError.connectionError) =
      ((buildPoints false "Adelaide" fullT).2.1 ++ [warnInflux PyError.connectionError], 1,
       .ok ((buildPoints false "Adelaide" fullT).1, false)) ∧
     (warnInflux PyError.connectionError).level = LogLevel.warning ∧
     loopIter false true "Adelaide" 0 (.ok fullT) (.error PyError.connectionError) (.ok []) g0 =
       ((postToPrometheus fullT g0).1,
        (buildPoints false "Adelaide" fullT).2.1 ++ [warnInflux PyError.connectionError], none) ∧
     (loopIter false true "Adelaide" 0 (.ok fullT) (.error PyError.connectionError) (.ok []) g0).1 =
       (loopIter false true "Adelaide" 0 (.ok fullT) (.ok ()) (.ok []) g0).1) :=
  ⟨by decide, by decide,
   C2_sink_independence fullT g0 "Adelaide" false 0 PyError.connectionError []
     (by decide) (by decide)⟩

/-- C5 counterexample: a telegram with one unparseable allow-listed field
between two parseable ones makes post_to_influxdb raise before any write:
no point is emitted at all (zero write attempts), instead of dropping the
one bad sample and emitting the other two. -/
theorem C5_no_partial_emit :
    postToInfluxdb false "Adelaide" 0
        [("ELECTRICITY_USED_TARIFF_1", PyVal.num 5),
         ("VOLTAGE_SAG_L2_COUNT", PyVal.nonNumeric "abc"),
         ("CURRENT_ELECTRICITY_USAGE", PyVal.num 3)] (.ok ()) =
      ([], 0, .error PyError.valueError) := by
  decide

/-- C5 amended: an allow-listed field that does not coerce raises
ValueError (the handler of line 168 catches only SyntaxError), aborting
the whole InfluxDB publication of the cycle before the write call; the
exception is caught at the cycle boundary and logged, the gauges keep
the values post_to_prometheus set, and the next cycle starts. No silent
zero is produced. -/
theorem C5_unparseable_aborts_influx_cycle (pre post : List (String × PyVal))
    (n s loc : String) (dbg : Bool) (now : Nat) (wr : Except PyError Unit)
    (g : GaugeState) (td : Telegram)
    (hpre : ∀ p ∈ pre, p.1 ∈ influxFields → p.2.isNum = true)
    (hn : n ∈ influxFields)
    (hp : (postToPrometheus (pre ++ (n, PyVal.nonNumeric s) :: post) g).2.2 = none) :
    (buildPoints dbg loc (pre ++ (n, PyVal.nonNumeric s) :: post)).2.2 =
      some PyError.valueError ∧
    postToInfluxdb dbg loc now (pre ++ (n, PyVal.nonNumeric s) :: post) wr =
      ((buildPoints dbg loc (pre ++ (n, PyVal.nonNumeric s) :: post)).2.1, 0,
       .error PyError.valueError) ∧
    loopIter dbg true loc now (.ok (pre ++ (n, PyVal.nonNumeric s) :: post)) wr (.ok td) g =
      ((postToPrometheus (pre ++ (n, PyVal.nonNumeric s) :: post) g).1,
       (buildPoints dbg loc (pre ++ (n, PyVal.nonNumeric s) :: post)).2.1 ++
         [warnCycle PyError.valueError], none) := by
  have hbe := buildPoints_err dbg loc n s post pre hpre hn
  have hA := postToInfluxdb_raise dbg loc now _ PyError.valueError wr hbe
  have hL := loopIter_influx_raises dbg loc now _ td wr g _ _ PyError.valueError hp hA
  exact ⟨hbe, hA, hL⟩

/-- C5 witness: the amended abort behaviour evaluated on a telegram whose
VOLTAGE_SAG_L2_COUNT reading is the string abc. -/
theorem C5_unparseable_aborts_witness :
    (∀ p ∈ fullT, p.1 ∈ influxFields → p.2.isNum = true) ∧
    "VOLTAGE_SAG_L2_COUNT" ∈ influxFields ∧
    (postToPrometheus (fullT ++ [("VOLTAGE_SAG_L2_COUNT", PyVal.nonNumeric "abc")]) g0).2.2 = none ∧
    ((buildPoints false "Adelaide" (fullT ++ [("VOLTAGE_SAG_L2_COUNT", PyVal.nonNumeric "abc")])).2.2 =
       some PyError.valueError ∧
     postToInfluxdb false "Adelaide" 0 (fullT ++ [("VOLTAGE_SAG_L2_COUNT", PyVal.nonNumeric "abc")]) (.ok ()) =
       ((buildPoints false "Adelaide" (fullT ++ [("VOLTAGE_SAG_L2_COUNT", PyVal.nonNumeric "abc")])).2.1, 0,
        .error PyError.valueError) ∧
     loopIter false true "Adelaide" 0
         (.ok (fullT ++ [("VOLTAGE_SAG_L2_COUNT", PyVal.nonNumeric "abc")])) (.ok ()) (.ok []) g0 =
       ((postToPrometheus (fullT ++ [("VOLTAGE_SAG_L2_COUNT", PyVal.nonNumeric "abc")]) g0).1,
        (buildPoints false "Adelaide" (fullT ++ [("VOLTAGE_SAG_L2_COUNT", PyVal.nonNumeric "abc")])).2.1 ++
          [warnCycle PyError.valueError], none)) :=
  ⟨by decide, by decide, by decide,
   C5_unparseable_aborts_influx_cycle fullT [] "VOLTAGE_SAG_L2_COUNT" "abc" "Adelaide"
     false 0 (.ok ()) g0 [] (by decide) (by decide) (by decide)⟩

/-- C6 counterexample: the points the program writes carry no timestamp
at all — epoch_time_now of line 162 is computed and never attached — so
a point batch published at time 5 does not hold the publication time. -/
theorem C6_point_has_no_timestamp :
    postToInfluxdb false "Adelaide" 5 [("ELECTRICITY_USED_TARIFF_1", PyVal.num 1)] (.ok ()) =
      ([], 1, .ok ([{ measurement := "dsmr", tags := [("location", "Adelaide")],
                      fields := [("ELECTRICITY_USED_TARIFF_1", (1 : ℚ))],
                      time := none }], true)) ∧
    (mkPoint "Adelaide" "ELECTRICITY_USED_TARIFF_1" 1).time ≠ some 5 := by
  exact ⟨by decide, by decide⟩

/-- C6 amended: when every allow-listed value coerces, the batch holds
exactly one point per allow-listed field of the telegram, in telegram
order, each with measurement dsmr, the single location tag, a single
field carrying the metric name and its numeric value, and no timestamp
attached (timestamp assignment is left to the sink). -/
theorem C6_batch_shape (t : Telegram) (loc : String) (dbg : Bool) (now : Nat)
    (hb : (buildPoints dbg loc t).2.2 = none) :
    postToInfluxdb dbg loc now t (.ok ()) =
      ((buildPoints dbg loc t).2.1 ++
         (if dbg then [⟨LogLevel.info, "InfluxDB response: OK"⟩] else []), 1,
       .ok ((buildPoints dbg loc t).1, true)) ∧
    (buildPoints dbg loc t).1 =
      (t.filter (fun p => influxFields.contains p.1)).map
        (fun p => mkPoint loc p.1 p.2.numOf) ∧
    (buildPoints dbg loc t).1.length =
      (t.filter (fun p => influxFields.contains p.1)).length ∧
    ∀ pt ∈ (buildPoints dbg loc t).1,
      pt.measurement = "dsmr" ∧ pt.tags = [("location", loc)] ∧
      pt.fields.length = 1 ∧ pt.time = none := by
  have hs := buildPoints_ok_shape dbg loc t hb
  refine ⟨postToInfluxdb_ok dbg loc now t hb, hs, by rw [hs]; simp, ?_⟩
  intro pt hpt
  rw [hs] at hpt
  rcases List.mem_map.mp hpt with ⟨p, _, rfl⟩
  simp [mkPoint]

/-- C6 witness: the batch-shape theorem evaluated on a concrete telegram
with the location label TestSite. -/
theorem C6_batch_shape_witness :
    (buildPoints false "TestSite" fullT).2.2 = none ∧
    (postToInfluxdb false "TestSite" 7 fullT (.ok ()) =
      ((buildPoints false "TestSite" fullT).2.1 ++
         (if false then [⟨LogLevel.info, "InfluxDB response: OK"⟩] else []), 1,
       .ok ((buildPoints false "TestSite" fullT).1, true)) ∧
     (buildPoints false "TestSite" fullT).1 =
       (fullT.filter (fun p => influxFields.contains p.1)).map
         (fun p => mkPoint "TestSite" p.1 p.2.numOf) ∧
     (buildPoints false "TestSite" fullT).1.length =
       (fullT.filter (fun p => influxFields.contains p.1)).length ∧
     ∀ pt ∈ (buildPoints false "TestSite" fullT).1,
       pt.measurement = "dsmr" ∧ pt.tags = [("location", "TestSite")] ∧
       pt.fields.length = 1 ∧ pt.time = none) :=
  ⟨by decide, C6_batch_shape fullT "TestSite" false 7 (by decide)⟩

/-- C3 witness: the value-by-value characterisation evaluated on the
one-field telegram of the counterexample. -/
theorem C3_gauges_updated_value_by_value_witness :
    postToPrometheus [("ELECTRICITY_USED_TARIFF_1", PyVal.num 5)] g0 =
      (applyAll
         (promUpdates.takeWhile (presentIn [("ELECTRICITY_USED_TARIFF_1", PyVal.num 5)]))
         [("ELECTRICITY_USED_TARIFF_1", PyVal.num 5)] g0,
       samplesOf
         (promUpdates.takeWhile (presentIn [("ELECTRICITY_USED_TARIFF_1", PyVal.num 5)]))
         [("ELECTRICITY_USED_TARIFF_1", PyVal.num 5)],
       if (promUpdates.takeWhile
             (presentIn [("ELECTRICITY_USED_TARIFF_1", PyVal.num 5)])).length =
           promUpdates.length then none
       else some PyError.attributeError) :=
  C3_gauges_updated_value_by_value [("ELECTRICITY_USED_TARIFF_1", PyVal.num 5)] g0

/-- C9 witness: the trichotomy evaluated at the concrete input Yes. -/
theorem C9_str_to_bool_trichotomy_witness :
    (strToBool "Yes" = .ok false ↔ "Yes".toLower ∈ ["false", "f", "0", "no", "n"]) ∧
    (strToBool "Yes" = .ok true ↔ "Yes".toLower ∈ ["true", "t", "1", "yes", "y"]) ∧
    (strToBool "Yes" = .error PyError.valueError ↔
      ("Yes".toLower ∉ ["false", "f", "0", "no", "n"] ∧
       "Yes".toLower ∉ ["true", "t", "1", "yes", "y"])) :=
  C9_str_to_bool_trichotomy "Yes"

/-- C10 witness: the client arguments evaluated on an environment that
sets INFLUXDB_VERIFY_SSL to true. -/
theorem C10_verify_ssl_always_disabled_witness :
    (influxdbClientArgs [("INFLUXDB_VERIFY_SSL", "true")]).verifySsl = false ∧
    ∀ v : String,
      influxdbClientArgs (("INFLUXDB_VERIFY_SSL", v) :: [("INFLUXDB_VERIFY_SSL", "true")]) =
        influxdbClientArgs [("INFLUXDB_VERIFY_SSL", "true")] :=
  C10_verify_ssl_always_disabled [("INFLUXDB_VERIFY_SSL", "true")]
